import Mathlib

/-!
Shallow embedding of `deepseek_finetune.py`, a straight-line fine-tuning
script.  The script's own logic is: a prompt formatter, a seeded 90/10
train/test split followed by two dataset `map` steps (formatting, then
fixed-length tokenization), construction of LoRA / training-argument /
trainer objects from literal constants, and a `main` that runs
setup → prepare → trainer setup → train → save → smoke test inside a
`try/finally wandb.finish()`.  The smoke test creates an `offload`
directory, runs one generation guarded by `try/except/finally`, and
removes the directory in the `finally`.

External library calls (tokenizer encoding, the seeded shuffle of the
dataset split, generation) are modelled as opaque function parameters or
deterministic functions of their stated inputs; filesystem and process
effects are modelled by an explicit state record threaded through the
steps.
-/

/-- Errors a Python call can raise: a dict lookup failure (`KeyError`)
or any other raised exception carrying a message. -/
inductive PyError where
  | keyError (key : String)
  | raised (msg : String)
deriving DecidableEq

/-- One raw example of the medical-reasoning dataset, seen as a dict that
may or may not carry each of the three fields the formatter reads.
`none` models a missing key. -/
structure RawSample where
  Question : Option String
  Complex_CoT : Option String
  Response : Option String
deriving DecidableEq

/-- The tokenizer as the script uses it: an end-of-sequence token (also
installed as the padding token by `setup_model`), its id, a padding side,
and an opaque encoding function mapping text to token ids. -/
structure Tokenizer where
  eos_token : String
  eos_token_id : Nat
  padding_side : String
  encode : String → List Nat

/-- `MAX_NEW_TOKENS = 2048` (line 28). -/
def MAX_NEW_TOKENS : Nat := 2048

/-- `MODEL_NAME` (line 29). -/
def MODEL_NAME : String := "deepseek-ai/DeepSeek-R1-Distill-Qwen-1.5B"

/-- The body of `format_instruction` (lines 73-86): the f-string with the
three fields and the eos token interpolated.  `\x7b...\x7d` interpolation
points become appends; the `<think>\n` / `</think>\n` escapes plus the
literal line breaks of the triple-quoted string give the double newlines. -/
def format_template (q c r eos : String) : String :=
  "### Instruction:\nPlease reason step by step:\n\n### Question:\n" ++
    (q ++ ("\n\n### Response:\n<think>\n\n" ++
      (c ++ ("\n</think>\n\n" ++ (r ++ ("\n" ++ eos))))))

/-- `sample['key']`: a dict lookup that raises `KeyError key` when the
field is missing. -/
def lookupField (v : Option String) (key : String) : Except PyError String :=
  match v with
  | some s => Except.ok s
  | none => Except.error (PyError.keyError key)

/-- `format_instruction` on a raw dict: evaluates the three interpolated
lookups in source order (Question, Complex_CoT, Response) and otherwise
builds `format_template`.  A missing field raises `KeyError`. -/
def formatRaw (eos : String) (s : RawSample) : Except PyError String := do
  let q ← lookupField s.Question "Question"
  let c ← lookupField s.Complex_CoT "Complex_CoT"
  let r ← lookupField s.Response "Response"
  Except.ok (format_template q c r eos)

/-- The first field, in the formatter's evaluation order, that is missing
from a raw sample (`none` when the sample is well-formed). -/
def firstMissing (s : RawSample) : Option String :=
  match s.Question with
  | none => some "Question"
  | some _ =>
    match s.Complex_CoT with
    | none => some "Complex_CoT"
    | some _ =>
      match s.Response with
      | none => some "Response"
      | some _ => none

/-- `dataset.map` with a fallible row function: applies `f` to each row in
order and propagates the first raised error unhandled. -/
def mapExcept (f : α → Except PyError β) : List α → Except PyError (List β)
  | [] => Except.ok []
  | x :: xs =>
    match f x with
    | Except.error e => Except.error e
    | Except.ok y => (mapExcept f xs).map (fun ys => y :: ys)

/-- A 64-bit linear congruential step, driving the modelled shuffle. -/
def lcg (x : Nat) : Nat :=
  (6364136223846793005 * x + 1442695040888963407) % 18446744073709551616

/-- Selection shuffle driven by `lcg`: repeatedly draws an index into the
remaining list.  `fuel` is the initial length, so every element is
consumed. -/
def shuffleGo : Nat → List α → Nat → List α
  | 0, _, _ => []
  | fuel + 1, l, r =>
    let r' := lcg r
    let k := r' % l.length
    match l[k]? with
    | some x => x :: shuffleGo fuel (l.eraseIdx k) r'
    | none => []

/-- Modelled from the spec: the external dataset library's seeded shuffle,
a deterministic permutation of the rows given the seed. -/
def seededShuffle (l : List α) (seed : Nat) : List α :=
  shuffleGo l.length l seed

/-- Modelled from the spec: `train_test_split(train_size=0.9,
test_size=0.1, seed)` — shuffle deterministically from the seed, take
`ceil(n/10)` rows as the test split and the next `floor(9n/10)` rows as
the train split.  Returns `(train, test)`. -/
def trainTestSplitCore (ds : List α) (seed : Nat) : List α × List α :=
  let n := ds.length
  let n_test := (n + 9) / 10
  let n_train := (9 * n) / 10
  let shuffled := seededShuffle ds seed
  ((shuffled.drop n_test).take n_train, shuffled.take n_test)

/-- A run of the split step: when a seed is passed the split is a function
of the dataset and the seed alone; when no seed is passed the library
falls back to the ambient global generator state. -/
def trainTestSplitRun (ds : List α) (seed : Option Nat) (ambient : Nat) :
    List α × List α :=
  trainTestSplitCore ds (seed.getD ambient)

/-- One tokenized row: the token-id sequence and its attention mask. -/
structure TokRow where
  input_ids : List Nat
  attention_mask : List Nat
deriving DecidableEq, Inhabited

/-- `tokenizer(text, truncation=True, padding="max_length",
max_length=MAX_NEW_TOKENS)` (lines 100-106): encode, truncate to the
maximum length, then right-pad with the pad token (the eos token, per
`setup_model`) up to exactly `MAX_NEW_TOKENS`; the attention mask is 1 on
real tokens and 0 on padding. -/
def tokenizePad (tok : Tokenizer) (text : String) : TokRow :=
  let ids := (tok.encode text).take MAX_NEW_TOKENS
  { input_ids := ids ++ List.replicate (MAX_NEW_TOKENS - ids.length) tok.eos_token_id,
    attention_mask :=
      List.replicate ids.length 1 ++ List.replicate (MAX_NEW_TOKENS - ids.length) 0 }

/-- The two `map` steps of `prepare_dataset` applied to the train split:
format every row (a missing field propagates a `KeyError` out of the
mapping step), then tokenize every formatted text. -/
def prepareFromTrain (tok : Tokenizer) (train : List RawSample) :
    Except PyError (List TokRow) :=
  (mapExcept (formatRaw tok.eos_token) train).map
    (fun texts => texts.map (tokenizePad tok))

/-- `prepare_dataset` (lines 63-115): split with the literal seed 42, then
format and tokenize the train split.  The test split is dropped. -/
def prepare_dataset (tok : Tokenizer) (ds : List RawSample) (ambient : Nat) :
    Except PyError (List TokRow) :=
  prepareFromTrain tok (trainTestSplitRun ds (some 42) ambient).1

/-- The rows of a successful preparation (empty when it raised). -/
def okRows (r : Except PyError (List TokRow)) : List TokRow :=
  match r with
  | Except.ok rows => rows
  | Except.error _ => []

/-- The config dict passed to `wandb.init` (lines 38-50).  Float literals
are modelled as exact rationals. -/
structure WandbConfig where
  model_name : String
  learning_rate : ℚ
  batch_size : Nat
  num_epochs : Nat
  hardware : String
  dataset : String
  lora_rank : Nat
  lora_alpha : Nat

/-- The literal hyperparameters logged to the experiment tracker at
initialization (lines 38-50): learning_rate 5e-5, batch_size 1,
num_epochs 2, lora_rank 8. -/
def wandb_init_config : WandbConfig :=
  { model_name := MODEL_NAME
    learning_rate := 5 / 100000
    batch_size := 1
    num_epochs := 2
    hardware := "Apple Silicon"
    dataset := "medical-o1-reasoning-SFT"
    lora_rank := 8
    lora_alpha := 16 }

/-- The LoRA adapter configuration object (fields of `LoraConfig`). -/
structure LoraConfigT where
  lora_alpha : Nat
  lora_dropout : ℚ
  r : Nat
  bias : String
  task_type : String
  target_modules : List String

/-- `peft_config` built in `setup_trainer` (lines 145-152): rank 4. -/
def peft_config : LoraConfigT :=
  { lora_alpha := 16
    lora_dropout := 1 / 10
    r := 4
    bias := "none"
    task_type := "CAUSAL_LM"
    target_modules := ["q_proj", "v_proj"] }

/-- The `TrainingArguments` bundle (fields the script sets). -/
structure TrainingArgumentsT where
  output_dir : String
  num_train_epochs : Nat
  per_device_train_batch_size : Nat
  gradient_accumulation_steps : Nat
  learning_rate : ℚ
  weight_decay : ℚ
  warmup_ratio : ℚ
  logging_steps : Nat
  save_strategy : String
  save_total_limit : Nat
  fp16 : Bool
  bf16 : Bool
  optim : String
  report_to : String
  gradient_checkpointing : Bool
  group_by_length : Bool
  max_grad_norm : ℚ
  dataloader_num_workers : Nat
  remove_unused_columns : Bool
  run_name : String
  deepspeed : Option String
  local_rank : Int
  ddp_find_unused_parameters : Option Bool
  torch_compile : Bool

/-- `training_args` built in `setup_trainer` (lines 155-181):
learning_rate 1e-4, per-device batch size 2, one epoch. -/
def training_args : TrainingArgumentsT :=
  { output_dir := "deepseek-r1-medical-finetuning"
    num_train_epochs := 1
    per_device_train_batch_size := 2
    gradient_accumulation_steps := 4
    learning_rate := 1 / 10000
    weight_decay := 1 / 100
    warmup_ratio := 3 / 100
    logging_steps := 10
    save_strategy := "epoch"
    save_total_limit := 1
    fp16 := true
    bf16 := false
    optim := "adamw_torch_fused"
    report_to := "wandb"
    gradient_checkpointing := true
    group_by_length := true
    max_grad_norm := 3 / 10
    dataloader_num_workers := 0
    remove_unused_columns := true
    run_name := "deepseek-medical-tutorial"
    deepspeed := none
    local_rank := -1
    ddp_find_unused_parameters := none
    torch_compile := false }

/-- The data collator (lines 184-187): the tokenizer and `mlm=False`. -/
structure DataCollator where
  tokenizer : Tokenizer
  mlm : Bool

/-- The `SFTTrainer` object as constructed on lines 190-197.  Exactly the
keyword arguments the script passes become fields; no evaluation dataset
is passed at all. -/
structure Trainer (M D : Type) where
  model : M
  train_dataset : D
  peft_config : LoraConfigT
  args : TrainingArgumentsT
  data_collator : DataCollator
  processing_class : Option Unit

/-- `setup_trainer(model, tokenizer, train_dataset, eval_dataset)`
(lines 142-199): builds the LoRA config, the training arguments, the
collator and the trainer.  The `eval_dataset` parameter appears in the
signature and is never read. -/
def setup_trainer {M D : Type} (model : M) (tokenizer : Tokenizer)
    (train_dataset : D) (eval_dataset : Option D) : Trainer M D :=
  { model := model
    train_dataset := train_dataset
    peft_config := peft_config
    args := training_args
    data_collator := { tokenizer := tokenizer, mlm := false }
    processing_class := none }

/-- Observable state of the process and filesystem: whether the `offload`
directory exists, whether the `./fine_tuned_model` checkpoint directory
exists, everything printed so far, the tables logged to the tracker, and
whether `wandb.finish` has run. -/
structure OSState where
  offload : Bool
  fineTunedModel : Bool
  stdout : List String
  wandbLogs : List (String × String)
  wandbFinished : Bool
deriving DecidableEq

/-- Outcome of the guarded block of the smoke test (lines 242-260):
either the generation, the two prints and the `wandb.log` all succeed,
or exactly one of them raises. -/
inductive TestOutcome where
  | success (text : String)
  | pipeFail (msg : String)
  | printFail (msg : String)
  | logFail (msg : String) (text : String)

/-- Result of running `test_model`: the final state and either normal
return or a propagated exception. -/
structure TestResult where
  state : OSState
  result : Except PyError Unit

/-- The fixed prompt of the smoke test (lines 238-240). -/
def test_problem : String :=
  "Please reason step by step:\n\nA 45-year-old patient presents with sudden onset chest pain, shortness of breath, and anxiety. The pain is described as sharp and worsens with deep breathing. What is the most likely diagnosis and what immediate tests should be ordered?"

/-- The two lines the `except` handler prints (lines 262-263). -/
def errLines (msg : String) : List String :=
  ["\nError during testing: " ++ msg,
   "Model was saved successfully but testing failed. You can load the model separately for testing."]

/-- `os.makedirs("offload", exist_ok=True)` (line 204). -/
def makedirsOffload (s : OSState) : OSState := { s with offload := true }

/-- The `finally` cleanup (lines 264-268): remove the offload directory
if it exists. -/
def rmtreeOffload (s : OSState) : OSState :=
  if s.offload then { s with offload := false } else s

/-- `test_model` (lines 201-268).  First `makedirs` creates the offload
directory.  The model reload, tokenizer load and pipeline construction
(lines 207-235) happen before the `try`, so a failure there (`loadFail`)
propagates and is not covered by the `finally`.  Inside the
`try/except/finally`, any exception from the generation call, the prints
or the `wandb.log` is caught, the handler prints its two lines, and the
`finally` removes the offload directory; the function returns normally. -/
def test_model (s : OSState) (loadFail : Option PyError) (out : TestOutcome) :
    TestResult :=
  let s1 := makedirsOffload s
  match loadFail with
  | some e => { state := s1, result := Except.error e }
  | none =>
    let s2 :=
      match out with
      | TestOutcome.success text =>
        { s1 with
          stdout := s1.stdout ++
            ["\nTest Problem: " ++ test_problem, "\nModel Response: " ++ text],
          wandbLogs := s1.wandbLogs ++ [(test_problem, text)] }
      | TestOutcome.pipeFail msg => { s1 with stdout := s1.stdout ++ errLines msg }
      | TestOutcome.printFail msg => { s1 with stdout := s1.stdout ++ errLines msg }
      | TestOutcome.logFail msg text =>
        { s1 with
          stdout := s1.stdout ++
            ["\nTest Problem: " ++ test_problem, "\nModel Response: " ++ text] ++
            errLines msg,
          wandbLogs := s1.wandbLogs }
    { state := rmtreeOffload s2, result := Except.ok () }

/-- Outcome injection for one run of `main`: whether each library-backed
stage succeeds or raises, plus the smoke-test outcomes. -/
structure RunConfig where
  setup : Except PyError Unit
  prepare : Except PyError Unit
  train : Except PyError Unit
  save : Except PyError Unit
  testLoad : Option PyError
  testGen : TestOutcome

/-- How many times each stage of `main` was invoked in a run. -/
structure Counts where
  setup : Nat
  prepare : Nat
  trainerSetup : Nat
  train : Nat
  save : Nat
  test : Nat
deriving DecidableEq

/-- Result of the `try` body of `main`: final state, invocation counts,
the state at the moment `test_model` is entered (when reached), and the
body's outcome. -/
structure RunResult where
  state : OSState
  counts : Counts
  preTest : Option OSState
  result : Except PyError Unit

/-- The `try` body of `main` (lines 272-289): print a banner, run a
stage, and stop at the first raised exception, which propagates.  A
successful save writes the `./fine_tuned_model` checkpoint; then
`test_model` runs on the resulting state. -/
def runBody (cfg : RunConfig) (s0 : OSState) : RunResult :=
  let s1 := { s0 with stdout := s0.stdout ++ ["\nSetting up model..."] }
  match cfg.setup with
  | Except.error e =>
    { state := s1, counts := ⟨1, 0, 0, 0, 0, 0⟩, preTest := none,
      result := Except.error e }
  | Except.ok _ =>
    let s2 := { s1 with stdout := s1.stdout ++ ["\nPreparing dataset..."] }
    match cfg.prepare with
    | Except.error e =>
      { state := s2, counts := ⟨1, 1, 0, 0, 0, 0⟩, preTest := none,
        result := Except.error e }
    | Except.ok _ =>
      let s3 := { s2 with stdout := s2.stdout ++ ["\nSetting up trainer..."] }
      let s4 := { s3 with stdout := s3.stdout ++ ["\nStarting training..."] }
      match cfg.train with
      | Except.error e =>
        { state := s4, counts := ⟨1, 1, 1, 1, 0, 0⟩, preTest := none,
          result := Except.error e }
      | Except.ok _ =>
        let s5 := { s4 with stdout := s4.stdout ++ ["\nSaving model..."] }
        match cfg.save with
        | Except.error e =>
          { state := s5, counts := ⟨1, 1, 1, 1, 1, 0⟩, preTest := none,
            result := Except.error e }
        | Except.ok _ =>
          let s6 :=
            { s5 with
              fineTunedModel := true
              stdout := s5.stdout ++ ["\nTesting model..."] }
          let t := test_model s6 cfg.testLoad cfg.testGen
          { state := t.state, counts := ⟨1, 1, 1, 1, 1, 1⟩, preTest := some s6,
            result := t.result }

/-- Result of `main`: final state and normal return or re-raise. -/
structure MainResult where
  state : OSState
  counts : Counts
  result : Except PyError Unit

/-- `main` (lines 270-292): the body inside `try`, and a bare `finally`
that always runs `wandb.finish()` before the function returns or
re-raises — there is no `except`, so an exception still propagates. -/
def mainRun (cfg : RunConfig) (s0 : OSState) : MainResult :=
  let r := runBody cfg s0
  { state := { r.state with wandbFinished := true }, counts := r.counts,
    result := r.result }

/-- The first stage of `main` that raises, used to enumerate failure
scenarios (`allOk` means no stage raises). -/
inductive Stage where
  | setup
  | prepare
  | train
  | save
  | testLoad
  | allOk

/-- The run `cfg` fails first at stage `st` with exception `e` (for
`allOk`: no stage outside the smoke-test boundary raises). -/
def failsAt (cfg : RunConfig) (st : Stage) (e : PyError) : Prop :=
  match st with
  | Stage.setup => cfg.setup = Except.error e
  | Stage.prepare => cfg.setup = Except.ok () ∧ cfg.prepare = Except.error e
  | Stage.train => cfg.setup = Except.ok () ∧ cfg.prepare = Except.ok () ∧
      cfg.train = Except.error e
  | Stage.save => cfg.setup = Except.ok () ∧ cfg.prepare = Except.ok () ∧
      cfg.train = Except.ok () ∧ cfg.save = Except.error e
  | Stage.testLoad => cfg.setup = Except.ok () ∧ cfg.prepare = Except.ok () ∧
      cfg.train = Except.ok () ∧ cfg.save = Except.ok () ∧ cfg.testLoad = some e
  | Stage.allOk => cfg.setup = Except.ok () ∧ cfg.prepare = Except.ok () ∧
      cfg.train = Except.ok () ∧ cfg.save = Except.ok () ∧ cfg.testLoad = none

/-- The invocation counts of a run that fails first at the given stage:
every stage up to and including the failing one runs exactly once, later
stages never run — no stage is ever retried. -/
def stageCounts : Stage → Counts
  | Stage.setup => ⟨1, 0, 0, 0, 0, 0⟩
  | Stage.prepare => ⟨1, 1, 0, 0, 0, 0⟩
  | Stage.train => ⟨1, 1, 1, 1, 0, 0⟩
  | Stage.save => ⟨1, 1, 1, 1, 1, 0⟩
  | Stage.testLoad => ⟨1, 1, 1, 1, 1, 1⟩
  | Stage.allOk => ⟨1, 1, 1, 1, 1, 1⟩

/-- The outcome of `main` for a run failing first at the given stage:
the same exception propagates out of `main`, except for `allOk` where
`main` returns normally. -/
def stageResult : Stage → PyError → Except PyError Unit
  | Stage.allOk, _ => Except.ok ()
  | _, e => Except.error e

/-- `sub` occurs verbatim inside `hay`. -/
def strContains (hay sub : String) : Prop :=
  ∃ a b : List Char, hay.data = a ++ sub.data ++ b

/-- A run of `main` in which every stage succeeds. -/
def runCfgAllOk : RunConfig :=
  { setup := Except.ok (), prepare := Except.ok (), train := Except.ok ()
    save := Except.ok (), testLoad := none
    testGen := TestOutcome.success "ok" }

/-- A run of `main` in which dataset preparation raises a `KeyError`. -/
def runCfgFailPrepare : RunConfig :=
  { setup := Except.ok (), prepare := Except.error (PyError.keyError "Question")
    train := Except.ok (), save := Except.ok (), testLoad := none
    testGen := TestOutcome.success "ok" }

/-- A clean initial state: no offload directory, no checkpoint, nothing
printed or logged. -/
def osInit : OSState :=
  { offload := false, fineTunedModel := false, stdout := [], wandbLogs := []
    wandbFinished := false }

/-- The state at which `test_model` is entered in an all-successful run
from `osInit`: checkpoint saved, six banners printed, no offload
directory. -/
def osPreTest : OSState :=
  { offload := false, fineTunedModel := true
    stdout := ["\nSetting up model...", "\nPreparing dataset...",
      "\nSetting up trainer...", "\nStarting training...",
      "\nSaving model...", "\nTesting model..."]
    wandbLogs := [], wandbFinished := false }

/-- A tokenizer whose encoder returns no tokens, with the eos/pad token
id 0. -/
def tokNull : Tokenizer :=
  { eos_token := "", eos_token_id := 0, padding_side := "right"
    encode := fun _ => [] }

/-- A two-row dataset of well-formed samples. -/
def dsTwo : List RawSample :=
  [{ Question := some "q1", Complex_CoT := some "c1", Response := some "r1" },
   { Question := some "q2", Complex_CoT := some "c2", Response := some "r2" }]

/-- The row `tokNull` produces from any text: all padding. -/
def rowZeros : TokRow :=
  { input_ids := List.replicate MAX_NEW_TOKENS 0
    attention_mask := List.replicate MAX_NEW_TOKENS 0 }

/-- A raw sample missing its `Question` field. -/
def rawMissingQ : RawSample :=
  { Question := none, Complex_CoT := some "c", Response := some "r" }

/-- A well-formed raw sample. -/
def rawGood : RawSample :=
  { Question := some "q", Complex_CoT := some "c", Response := some "r" }

/-- A well-formed sample is formatted without error. -/
theorem formatRaw_ok_of_wellFormed (eos : String) (t : RawSample)
    (h : firstMissing t = none) : ∃ out, formatRaw eos t = Except.ok out := by
  obtain ⟨oq, oc, orr⟩ := t
  cases oq <;> cases oc <;> cases orr <;> simp [firstMissing] at h <;>
    exact ⟨_, rfl⟩

/-- A sample missing a field is formatted to a `KeyError` on the first
missing field in evaluation order. -/
theorem formatRaw_error_of_missing (eos : String) (s : RawSample) (k : String)
    (h : firstMissing s = some k) :
    formatRaw eos s = Except.error (PyError.keyError k) := by
  obtain ⟨oq, oc, orr⟩ := s
  cases oq <;> cases oc <;> cases orr <;>
    simp only [firstMissing, Option.some.injEq, reduceCtorEq] at h <;>
    first
    | exact absurd h (by simp)
    | (subst h; rfl)

/-- Truncation then padding yields rows of exactly the configured
length. -/
theorem tokenizePad_length (tok : Tokenizer) (t : String) :
    (tokenizePad tok t).input_ids.length = MAX_NEW_TOKENS ∧
    (tokenizePad tok t).attention_mask.length = MAX_NEW_TOKENS := by
  constructor <;>
    simp [tokenizePad, List.length_append, List.length_replicate,
      List.length_take]

/-- Mapping the formatter over a list whose well-formed prefix is
followed by a sample with a missing field raises that sample's
`KeyError`, which propagates out of the map. -/
theorem mapExcept_error_of_missing (eos : String) (pre : List RawSample)
    (s : RawSample) (post : List RawSample) (k : String)
    (h1 : firstMissing s = some k) (h2 : ∀ t ∈ pre, firstMissing t = none) :
    mapExcept (formatRaw eos) (pre ++ s :: post) =
      Except.error (PyError.keyError k) := by
  induction pre with
  | nil =>
    simp only [List.nil_append, mapExcept,
      formatRaw_error_of_missing eos s k h1]
  | cons t rest ih =>
    obtain ⟨out, hout⟩ :=
      formatRaw_ok_of_wellFormed eos t (h2 t (List.mem_cons_self t rest))
    have hrest := ih (fun u hu => h2 u (List.mem_cons_of_mem t hu))
    simp only [List.cons_append, mapExcept, hout, Except.map, List.append_eq,
      hrest]

/-- C2: for every well-formed input record (one having the Question,
Complex_CoT and Response fields), `format_instruction` returns a string
that contains the fixed instruction template, the record's question
verbatim, and the record's answer verbatim. -/
theorem format_instruction_contains_template_question_answer
    (q c r eos : String) :
    formatRaw eos { Question := some q, Complex_CoT := some c, Response := some r } =
      Except.ok (format_template q c r eos) ∧
    strContains (format_template q c r eos)
      "### Instruction:\nPlease reason step by step:" ∧
    strContains (format_template q c r eos) q ∧
    strContains (format_template q c r eos) r := by
  refine ⟨rfl, ?_, ?_, ?_⟩
  · refine ⟨[], ("\n\n### Question:\n" ++ (q ++ ("\n\n### Response:\n<think>\n\n" ++
      (c ++ ("\n</think>\n\n" ++ (r ++ ("\n" ++ eos))))))).data, ?_⟩
    have hsplit :
        ("### Instruction:\nPlease reason step by step:\n\n### Question:\n" : String).data =
          ("### Instruction:\nPlease reason step by step:" : String).data ++
            ("\n\n### Question:\n" : String).data := rfl
    simp [format_template, String.data_append, hsplit, List.append_assoc]
  · refine ⟨("### Instruction:\nPlease reason step by step:\n\n### Question:\n" : String).data,
      ("\n\n### Response:\n<think>\n\n" ++
        (c ++ ("\n</think>\n\n" ++ (r ++ ("\n" ++ eos))))).data, ?_⟩
    simp [format_template, String.data_append, List.append_assoc]
  · refine ⟨("### Instruction:\nPlease reason step by step:\n\n### Question:\n" : String).data ++
        q.data ++ ("\n\n### Response:\n<think>\n\n" : String).data ++ c.data ++
        ("\n</think>\n\n" : String).data,
      ("\n" ++ eos).data, ?_⟩
    simp [format_template, String.data_append, List.append_assoc]

/-- C4: the 90/10 train/test split is deterministic: with the literal
seed 42 that `prepare_dataset` passes, the split — and with it the whole
preparation — is a function of the dataset alone, independent of the
ambient generator state that would be consulted had no seed been
passed. -/
theorem split_deterministic_under_seed42 (ds : List RawSample)
    (amb1 amb2 : Nat) (tok : Tokenizer) :
    trainTestSplitRun ds (some 42) amb1 = trainTestSplitRun ds (some 42) amb2 ∧
    prepare_dataset tok ds amb1 = prepare_dataset tok ds amb2 :=
  ⟨rfl, rfl⟩

/-- C5: after the tokenization step of `prepare_dataset`, every example
of the resulting training dataset has token-id sequences (and attention
masks) of exactly the configured fixed length `MAX_NEW_TOKENS = 2048`,
enforced by truncation and padding to the maximum length. -/
theorem tokenized_rows_have_fixed_length (tok : Tokenizer)
    (ds : List RawSample) (ambient : Nat) (row : TokRow)
    (h : row ∈ okRows (prepare_dataset tok ds ambient)) :
    row.input_ids.length = MAX_NEW_TOKENS ∧
    row.attention_mask.length = MAX_NEW_TOKENS := by
  unfold prepare_dataset prepareFromTrain at h
  cases hm : mapExcept (formatRaw tok.eos_token)
      (trainTestSplitRun ds (some 42) ambient).1 with
  | error e => rw [hm] at h; simp [okRows, Except.map] at h
  | ok texts =>
    rw [hm] at h
    simp only [okRows, Except.map, List.mem_map] at h
    obtain ⟨t, _, rfl⟩ := h
    exact tokenizePad_length tok t

/-- Witness for C5: a concrete two-row dataset prepared with a concrete
tokenizer yields the all-padding row, and that row has length 2048. -/
theorem tokenized_rows_have_fixed_length_witness :
    rowZeros ∈ okRows (prepare_dataset tokNull dsTwo 0) ∧
    (rowZeros.input_ids.length = MAX_NEW_TOKENS ∧
      rowZeros.attention_mask.length = MAX_NEW_TOKENS) :=
  have hmem : rowZeros ∈ okRows (prepare_dataset tokNull dsTwo 0) := by
    rw [show okRows (prepare_dataset tokNull dsTwo 0) = [rowZeros] from rfl]
    exact List.mem_singleton_self rowZeros
  ⟨hmem, tokenized_rows_have_fixed_length tokNull dsTwo 0 rowZeros hmem⟩

/-- C6: for every raw example missing one of the fields Question,
Complex_CoT or Response, the formatter performs no validation and raises
a lookup error (`KeyError` on the first missing field), which propagates
unhandled out of the mapping step. -/
theorem missing_field_raises_keyerror (eos : String) (s : RawSample)
    (pre post : List RawSample) (k : String)
    (h1 : firstMissing s = some k) (h2 : ∀ t ∈ pre, firstMissing t = none) :
    formatRaw eos s = Except.error (PyError.keyError k) ∧
    mapExcept (formatRaw eos) (pre ++ s :: post) =
      Except.error (PyError.keyError k) :=
  ⟨formatRaw_error_of_missing eos s k h1,
   mapExcept_error_of_missing eos pre s post k h1 h2⟩

/-- Witness for C6: a sample missing its Question raises
`KeyError "Question"` from the formatter and from the mapped dataset
containing it. -/
theorem missing_field_raises_keyerror_witness :
    firstMissing rawMissingQ = some "Question" ∧
    formatRaw "" rawMissingQ = Except.error (PyError.keyError "Question") ∧
    mapExcept (formatRaw "") ([rawGood] ++ rawMissingQ :: []) =
      Except.error (PyError.keyError "Question") :=
  ⟨rfl,
   (missing_field_raises_keyerror "" rawMissingQ [rawGood] [] "Question" rfl
      (by decide)).1,
   (missing_field_raises_keyerror "" rawMissingQ [rawGood] [] "Question" rfl
      (by decide)).2⟩

/-- C8: the hyperparameters logged to the experiment tracker at
initialization (learning_rate 5e-5, batch_size 1, num_epochs 2,
lora_rank 8) do not equal the hyperparameters the trainer actually uses
(learning_rate 1e-4, per-device batch size 2, 1 epoch, LoRA rank 4):
the two configurations disagree on all four values. -/
theorem logged_config_differs_from_effective :
    (wandb_init_config.learning_rate = 5 / 100000 ∧
      training_args.learning_rate = 1 / 10000 ∧
      wandb_init_config.batch_size = 1 ∧
      training_args.per_device_train_batch_size = 2 ∧
      wandb_init_config.num_epochs = 2 ∧ training_args.num_train_epochs = 1 ∧
      wandb_init_config.lora_rank = 8 ∧ peft_config.r = 4) ∧
    wandb_init_config.learning_rate ≠ training_args.learning_rate ∧
    wandb_init_config.batch_size ≠ training_args.per_device_train_batch_size ∧
    wandb_init_config.num_epochs ≠ training_args.num_train_epochs ∧
    wandb_init_config.lora_rank ≠ peft_config.r := by
  refine ⟨⟨rfl, rfl, rfl, rfl, rfl, rfl, rfl, rfl⟩, ?_, ?_, ?_, ?_⟩ <;>
    norm_num [wandb_init_config, training_args, peft_config]

/-- C9: `setup_trainer` ignores its `eval_dataset` parameter entirely —
any two values of it (including `None`) yield identical trainers — and
the 10% test split is never used: the prepared training data is a
function of the train half of the split alone, and the trainer carries
no evaluation dataset. -/
theorem setup_trainer_ignores_eval_dataset {M D : Type} (model : M)
    (tokenizer : Tokenizer) (train_dataset : D) (e1 e2 : Option D)
    (tok : Tokenizer) (ds : List RawSample) (ambient : Nat) :
    setup_trainer model tokenizer train_dataset e1 =
      setup_trainer model tokenizer train_dataset e2 ∧
    (setup_trainer model tokenizer train_dataset e1).train_dataset =
      train_dataset ∧
    prepare_dataset tok ds ambient =
      prepareFromTrain tok (trainTestSplitRun ds (some 42) ambient).1 :=
  ⟨rfl, rfl, rfl⟩

/-- C10: on every execution path of `main` — whatever combination of
stage outcomes, success or raised exception — `wandb.finish` has run in
the final state, and the body's outcome (normal return or re-raise) is
passed through unchanged. -/
theorem wandb_finish_runs_on_every_path (cfg : RunConfig) (s0 : OSState) :
    (mainRun cfg s0).state.wandbFinished = true ∧
    (mainRun cfg s0).result = (runBody cfg s0).result :=
  ⟨rfl, rfl⟩

/-- C3: every exception raised inside the smoke test after the model
reload — by the generation call, the result printing, or the `wandb.log`
— is caught and treated as non-fatal (`test_model` returns normally),
the handler prints the error, and the saved `./fine_tuned_model`
checkpoint is untouched on every such path. -/
theorem smoke_test_error_boundary (s : OSState) (out : TestOutcome)
    (msg text : String) :
    (test_model s none out).result = Except.ok () ∧
    (test_model s none out).state.fineTunedModel = s.fineTunedModel ∧
    ("\nError during testing: " ++ msg) ∈
      (test_model s none (TestOutcome.pipeFail msg)).state.stdout ∧
    ("\nError during testing: " ++ msg) ∈
      (test_model s none (TestOutcome.printFail msg)).state.stdout ∧
    ("\nError during testing: " ++ msg) ∈
      (test_model s none (TestOutcome.logFail msg text)).state.stdout := by
  refine ⟨by cases out <;> rfl, by cases out <;> rfl, ?_, ?_, ?_⟩ <;>
    simp [test_model, makedirsOffload, rmtreeOffload, errLines,
      List.mem_append]

/-- C1: in any run of `main` started with no offload directory, the
offload directory is still absent when `test_model` is entered, the
first action of `test_model` creates it, and after the guarded block —
on the success path and on every failure path of the generation call —
it is absent again. -/
theorem offload_absent_around_smoke_test (cfg : RunConfig) (s0 sPre : OSState)
    (out : TestOutcome) (h0 : s0.offload = false)
    (hpre : (runBody cfg s0).preTest = some sPre) :
    sPre.offload = false ∧ (makedirsOffload sPre).offload = true ∧
    (test_model sPre none out).state.offload = false := by
  obtain ⟨su, pr, tr, sa, tl, tg⟩ := cfg
  cases su <;> cases pr <;> cases tr <;> cases sa <;>
    simp only [runBody, Option.some.injEq, reduceCtorEq] at hpre
  subst hpre
  exact ⟨h0, rfl, by cases out <;> rfl⟩

/-- Witness for C1: the all-successful run from the clean initial state
reaches `test_model` in state `osPreTest`, with the offload directory
absent before, present right after `makedirs`, and absent after. -/
theorem offload_absent_around_smoke_test_witness :
    osInit.offload = false ∧
    (runBody runCfgAllOk osInit).preTest = some osPreTest ∧
    (osPreTest.offload = false ∧ (makedirsOffload osPreTest).offload = true ∧
      (test_model osPreTest none (TestOutcome.success "ok")).state.offload =
        false) :=
  ⟨rfl, rfl,
   offload_absent_around_smoke_test runCfgAllOk osInit osPreTest
     (TestOutcome.success "ok") rfl rfl⟩

/-- C7: every failure outside the smoke-test error boundary — a
model/tokenizer loading error, a dataset-preparation error such as a
missing field, a training or saving failure, or the smoke test's own
model reload — propagates unhandled out of `main` with the same
exception, and every stage is invoked at most once: no retry anywhere. -/
theorem failures_outside_boundary_propagate (cfg : RunConfig) (s0 : OSState)
    (st : Stage) (e : PyError) (h : failsAt cfg st e) :
    (mainRun cfg s0).result = stageResult st e ∧
    (mainRun cfg s0).counts = stageCounts st := by
  obtain ⟨su, pr, tr, sa, tl, tg⟩ := cfg
  cases st <;> simp only [failsAt] at h
  case setup => subst h; exact ⟨rfl, rfl⟩
  case prepare => obtain ⟨h1, h2⟩ := h; subst h1; subst h2; exact ⟨rfl, rfl⟩
  case train =>
    obtain ⟨h1, h2, h3⟩ := h; subst h1; subst h2; subst h3; exact ⟨rfl, rfl⟩
  case save =>
    obtain ⟨h1, h2, h3, h4⟩ := h
    subst h1; subst h2; subst h3; subst h4; exact ⟨rfl, rfl⟩
  case testLoad =>
    obtain ⟨h1, h2, h3, h4, h5⟩ := h
    subst h1; subst h2; subst h3; subst h4; subst h5; exact ⟨rfl, rfl⟩
  case allOk =>
    obtain ⟨h1, h2, h3, h4, h5⟩ := h
    subst h1; subst h2; subst h3; subst h4; subst h5
    cases tg <;> exact ⟨rfl, rfl⟩

/-- Witness for C7: a run whose dataset preparation raises
`KeyError "Question"` makes `main` re-raise exactly that exception, with
setup and preparation each invoked once and nothing after them run. -/
theorem failures_outside_boundary_propagate_witness :
    (mainRun runCfgFailPrepare osInit).result =
      stageResult Stage.prepare (PyError.keyError "Question") ∧
    (mainRun runCfgFailPrepare osInit).counts = stageCounts Stage.prepare :=
  failures_outside_boundary_propagate runCfgFailPrepare osInit Stage.prepare
    (PyError.keyError "Question") ⟨rfl, rfl⟩
